import Mathlib

/-!
Shallow embedding of the RunSnap stat-overlay editor core
(the React component in the repository source: `calculatePace`,
`drawCanvas`, the drag/pinch/wheel gesture handlers and the image
upload handler), together with theorems settling the frozen claims.

JavaScript numbers are modelled as `JsNum`: exact rationals extended
with `NaN` and the two infinities, which is enough to express the
NaN-propagation and truthiness behaviour the code relies on.
Strings are Lean `String`s; `parseInt` / `parseFloat` are modelled on
decimal inputs (optional sign, digits, fraction, exponent, and the
`Infinity` literals for `parseFloat`).
-/

namespace RunSnap

/-- A JavaScript number: NaN, +Infinity, -Infinity, or a finite value
(modelled as an exact rational). -/
inductive JsNum where
  | nan : JsNum
  | inf : JsNum
  | ninf : JsNum
  | fin (q : ℚ) : JsNum
deriving DecidableEq, Repr

/-- JavaScript `+` on numbers (NaN propagates; Infinity - Infinity is NaN). -/
def jsAdd : JsNum → JsNum → JsNum
  | .nan, _ => .nan
  | _, .nan => .nan
  | .inf, .ninf => .nan
  | .ninf, .inf => .nan
  | .inf, _ => .inf
  | _, .inf => .inf
  | .ninf, _ => .ninf
  | _, .ninf => .ninf
  | .fin a, .fin b => .fin (a + b)

/-- JavaScript `*` on numbers (NaN propagates; 0 * Infinity is NaN). -/
def jsMul : JsNum → JsNum → JsNum
  | .nan, _ => .nan
  | _, .nan => .nan
  | .inf, .inf => .inf
  | .inf, .ninf => .ninf
  | .ninf, .inf => .ninf
  | .ninf, .ninf => .inf
  | .inf, .fin q => if q = 0 then .nan else if 0 < q then .inf else .ninf
  | .fin q, .inf => if q = 0 then .nan else if 0 < q then .inf else .ninf
  | .ninf, .fin q => if q = 0 then .nan else if 0 < q then .ninf else .inf
  | .fin q, .ninf => if q = 0 then .nan else if 0 < q then .ninf else .inf
  | .fin a, .fin b => .fin (a * b)

/-- JavaScript `/` on numbers (x/0 is ±Infinity for x ≠ 0, 0/0 is NaN,
finite/Infinity is 0). -/
def jsDiv : JsNum → JsNum → JsNum
  | .nan, _ => .nan
  | _, .nan => .nan
  | .inf, .inf => .nan
  | .inf, .ninf => .nan
  | .ninf, .inf => .nan
  | .ninf, .ninf => .nan
  | .inf, .fin q => if q < 0 then .ninf else .inf
  | .ninf, .fin q => if q < 0 then .inf else .ninf
  | .fin _, .inf => .fin 0
  | .fin _, .ninf => .fin 0
  | .fin a, .fin b =>
      if b = 0 then (if a = 0 then .nan else if 0 < a then .inf else .ninf)
      else .fin (a / b)

/-- Truncation toward zero on rationals, as used by the JavaScript `%`
operator (whose result takes the sign of the dividend). -/
def ratTrunc (q : ℚ) : ℤ := if q < 0 then ⌈q⌉ else ⌊q⌋

/-- JavaScript `%` on numbers: `a % b = a - b * trunc(a / b)`
(NaN propagates; Infinity % x is NaN; x % Infinity is x). -/
def jsMod : JsNum → JsNum → JsNum
  | .nan, _ => .nan
  | _, .nan => .nan
  | .inf, _ => .nan
  | .ninf, _ => .nan
  | .fin a, .inf => .fin a
  | .fin a, .ninf => .fin a
  | .fin a, .fin b => if b = 0 then .nan else .fin (a - b * (ratTrunc (a / b) : ℚ))

/-- JavaScript `Math.floor` (NaN and the infinities map to themselves). -/
def jsFloor : JsNum → JsNum
  | .nan => .nan
  | .inf => .inf
  | .ninf => .ninf
  | .fin q => .fin (⌊q⌋ : ℚ)

/-- JavaScript `<` on numbers (any comparison with NaN is false). -/
def jsLt : JsNum → JsNum → Bool
  | .nan, _ => false
  | _, .nan => false
  | .inf, _ => false
  | _, .inf => true
  | .ninf, .ninf => false
  | .ninf, _ => true
  | .fin _, .ninf => false
  | .fin a, .fin b => decide (a < b)

/-- JavaScript `<=` on numbers (any comparison with NaN is false). -/
def jsLe : JsNum → JsNum → Bool
  | .nan, _ => false
  | _, .nan => false
  | .inf, .inf => true
  | .inf, _ => false
  | _, .inf => true
  | .ninf, _ => true
  | .fin _, .ninf => false
  | .fin a, .fin b => decide (a ≤ b)

/-- JavaScript `Number.prototype.toString` as used in the code.  In the
modelled code paths it is only ever applied to NaN or to integral values
(results of `Math.floor`), for which JavaScript prints the plain decimal
form; the fractional fallback is unreachable there. -/
def jsToString : JsNum → String
  | .nan => "NaN"
  | .inf => "Infinity"
  | .ninf => "-Infinity"
  | .fin q => if q.den = 1 then toString q.num else toString q.num ++ "/" ++ toString q.den

/-- JavaScript string truthiness fallback `s || d` (the empty string is
falsy). -/
def jsStrOr (s d : String) : String := if s = "" then d else s

/-- JavaScript number truthiness fallback `v || 0` (NaN and 0 are falsy). -/
def jsOrZero (v : JsNum) : JsNum :=
  if v = .nan ∨ v = .fin 0 then .fin 0 else v

/-- Numeric value of a list of decimal digit characters. -/
def digitsVal (cs : List Char) : ℕ :=
  cs.foldl (fun a c => 10 * a + (c.toNat - 48)) 0

/-- Drop leading JavaScript whitespace. -/
def skipWs (cs : List Char) : List Char :=
  cs.dropWhile (fun c => c == ' ' || c == '\t' || c == '\n' || c == '\r')

/-- Split an optional leading sign off a character list, returning the
sign as an integer. -/
def splitSign (cs : List Char) : ℤ × List Char :=
  match cs with
  | '-' :: rest => (-1, rest)
  | '+' :: rest => (1, rest)
  | _ => (1, cs)

/-- JavaScript `parseInt(s)` on decimal inputs: skip whitespace, read an
optional sign and then the longest prefix of decimal digits; `none`
models NaN (no digits).  (The hex-prefix form of `parseInt`, irrelevant
to the numeric form fields here, is not modelled.) -/
def jsParseInt (s : String) : Option ℤ :=
  let (sgn, cs) := splitSign (skipWs s.data)
  let ds := cs.takeWhile Char.isDigit
  if ds.isEmpty then none else some (sgn * (digitsVal ds : ℤ))

/-- The result of `parseInt` as a `JsNum` (NaN when nothing parsed). -/
def jsParseIntNum (s : String) : JsNum :=
  match jsParseInt s with
  | none => .nan
  | some i => .fin (i : ℚ)

/-- Exponent part of a decimal literal: `e`/`E`, optional sign, digits
(0 when absent or malformed, in which case JavaScript ignores it). -/
def parseExpPart (cs : List Char) : ℤ :=
  match cs with
  | 'e' :: rest =>
      let (sgn, cs1) := splitSign rest
      let ds := cs1.takeWhile Char.isDigit
      if ds.isEmpty then 0 else sgn * (digitsVal ds : ℤ)
  | 'E' :: rest =>
      let (sgn, cs1) := splitSign rest
      let ds := cs1.takeWhile Char.isDigit
      if ds.isEmpty then 0 else sgn * (digitsVal ds : ℤ)
  | _ => 0

/-- JavaScript `parseFloat(s)`: skip whitespace, optional sign, then
either an `Infinity` literal or a decimal literal
`digits [. digits] [exponent]`; NaN when no digits at all. -/
def jsParseFloat (s : String) : JsNum :=
  let (sgn, cs) := splitSign (skipWs s.data)
  if cs.take 8 = "Infinity".data then (if sgn < 0 then .ninf else .inf)
  else
    let intDs := cs.takeWhile Char.isDigit
    let cs1 := cs.drop intDs.length
    let (fracDs, cs2) : List Char × List Char :=
      match cs1 with
      | '.' :: rest => (rest.takeWhile Char.isDigit, rest.drop (rest.takeWhile Char.isDigit).length)
      | _ => ([], cs1)
    if intDs.isEmpty ∧ fracDs.isEmpty then .nan
    else
      let mant : ℚ := (digitsVal intDs : ℚ) + (digitsVal fracDs : ℚ) / ((10 : ℚ) ^ fracDs.length)
      .fin ((sgn : ℚ) * mant * (10 : ℚ) ^ parseExpPart cs2)

/-- JavaScript `String.prototype.padStart(n, c)`. -/
def padStart (n : ℕ) (c : Char) (s : String) : String :=
  String.mk (List.replicate (n - s.length) c) ++ s

/-- The `RunData` form state (types.ts): every numeric stat field is a
raw string supplied by the form layer. -/
structure RunData where
  timeHours : String
  timeMinutes : String
  timeSeconds : String
  distance : String
  heartRate : String
  temperature : String
  showEmojis : Bool
  filter : String
deriving DecidableEq, Repr

/-- The transform applied to the photo (interface TransformState). -/
structure TransformState where
  scale : ℚ
  offsetX : ℚ
  offsetY : ℚ
deriving DecidableEq, Repr

/-- A decoded source image with its intrinsic dimensions. -/
structure Image where
  naturalWidth : ℚ
  naturalHeight : ℚ
deriving DecidableEq, Repr

/-- A filter preset (interface FilterType). -/
structure FilterType where
  id : String
  name : String
  cssFilter : String
deriving DecidableEq, Repr

/-- The static FILTERS preset list from the source. -/
def FILTERS : List FilterType :=
  [ { id := "none", name := "Original", cssFilter := "none" },
    { id := "grayscale", name := "B&W", cssFilter := "grayscale(100%)" },
    { id := "sepia", name := "Classic", cssFilter := "sepia(60%)" },
    { id := "vivid", name := "Vivid", cssFilter := "saturate(160%) brightness(110%)" },
    { id := "dim", name := "Moody", cssFilter := "brightness(70%) contrast(120%)" },
    { id := "warm", name := "Warm", cssFilter := "sepia(30%) saturate(140%) brightness(105%)" },
    { id := "cool", name := "Cool", cssFilter := "hue-rotate(180deg) saturate(80%) brightness(110%)" },
    { id := "high-contrast", name := "Hard", cssFilter := "contrast(150%) brightness(90%)" } ]

/-- The `calculatePace` callback, embedded line by line:
`parseFloat(distance) || 0`; distance ≤ 0 gives the dash placeholder;
`totalSeconds = parseInt(h||0)*3600 + parseInt(m||0)*60 + parseInt(s||0)`;
`paceInSeconds = totalSeconds / distanceNum`;
`pMin = floor(pace/60)`, `pSec = floor(pace % 60)`;
pMin < 100 formats the pace, otherwise the double-dash placeholder. -/
def calculatePace (rd : RunData) : String :=
  let distanceNum := jsOrZero (jsParseFloat rd.distance)
  if jsLe distanceNum (.fin 0) then "-\x27--\""
  else
    let totalSeconds :=
      jsAdd (jsAdd (jsMul (jsParseIntNum (jsStrOr rd.timeHours "0")) (.fin 3600))
                   (jsMul (jsParseIntNum (jsStrOr rd.timeMinutes "0")) (.fin 60)))
            (jsParseIntNum (jsStrOr rd.timeSeconds "0"))
    let paceInSeconds := jsDiv totalSeconds distanceNum
    let pMin := jsFloor (jsDiv paceInSeconds (.fin 60))
    let pSec := jsFloor (jsMod paceInSeconds (.fin 60))
    if jsLt pMin (.fin 100) then
      jsToString pMin ++ "\x27" ++ padStart 2 '0' (jsToString pSec) ++ "\""
    else "--\x27--\""

/-- The elapsed-time label computed inside `drawCanvas`:
`hoursInt = parseInt(timeHours || 0)`; minutes and seconds strings padded
with `padStart(2, 0)`; an `HH:` prefix (from `hoursInt.toString()`
padded) exactly when `hoursInt > 0`. -/
def timeDisplay (rd : RunData) : String :=
  let hoursInt := jsParseIntNum (jsStrOr rd.timeHours "0")
  let m := padStart 2 '0' (jsStrOr rd.timeMinutes "0")
  let s := padStart 2 '0' (jsStrOr rd.timeSeconds "0")
  if jsLt (.fin 0) hoursInt then
    padStart 2 '0' (jsToString hoursInt) ++ ":" ++ m ++ ":" ++ s
  else m ++ ":" ++ s

/-- The `topLeftParts` array built inside `drawCanvas`: the heart-rate
entry when `runData.heartRate` is truthy (a non-empty string), then the
temperature entry when `runData.temperature` is truthy. -/
def topLeftParts (rd : RunData) : List String :=
  (if rd.heartRate ≠ "" then
     [(if rd.showEmojis then "❤️ " else "") ++ rd.heartRate ++ " bpm"]
   else []) ++
  (if rd.temperature ≠ "" then
     [(if rd.showEmojis then "🌡️ " else "") ++ rd.temperature ++ "°C"]
   else [])

/-- The drawing-context state a 2D canvas carries between draw calls
(the fields `drawCanvas` touches). -/
structure CtxCore where
  filter : String
  shadowColor : String
  shadowBlur : ℚ
  shadowOffsetX : ℚ
  shadowOffsetY : ℚ
  strokeStyle : String
  fillStyle : String
  lineWidth : ℚ
  font : String
  textAlign : String
deriving DecidableEq, Repr

/-- The default context state a canvas context has right after its
backing canvas is given a new width/height (per the HTML canvas
specification that assignment resets the context). -/
def defaultCtx : CtxCore :=
  { filter := "none", shadowColor := "rgba(0, 0, 0, 0)", shadowBlur := 0,
    shadowOffsetX := 0, shadowOffsetY := 0, strokeStyle := "#000000",
    fillStyle := "#000000", lineWidth := 1, font := "10px sans-serif",
    textAlign := "start" }

/-- A rasterisation primitive: each draw call recorded together with the
full ambient context state in force when it executed.  Two invocations
whose primitive lists are equal rasterise to byte-identical pixels. -/
inductive Prim where
  | clearRect (x y w h : ℚ) (ctx : CtxCore)
  | drawImage (img : Image) (x y w h : ℚ) (ctx : CtxCore)
  | strokeRect (x y w h : ℚ) (ctx : CtxCore)
  | fillText (text : String) (x y : ℚ) (ctx : CtxCore)
deriving DecidableEq, Repr

/-- The ambient context state recorded in a primitive. -/
def primCtx : Prim → CtxCore
  | .clearRect _ _ _ _ c => c
  | .drawImage _ _ _ _ _ c => c
  | .strokeRect _ _ _ _ c => c
  | .fillText _ _ _ c => c

/-- The `drawCanvas` callback, embedded as the list of draw primitives it
issues.  `ctx0` is the context state left behind by a previous
invocation; the first thing the code does is assign `canvas.width` /
`canvas.height`, which per the HTML canvas specification resets the
context to `defaultCtx`, so `ctx0` is discarded.  `dateDisplay` is the
string produced by `new Date().toLocaleDateString(..)` at the moment of
the call — an ambient input read inside the function. -/
def drawCanvas (ctx0 : CtxCore) (img : Image) (rd : RunData)
    (tf : TransformState) (dateDisplay : String) : List Prim :=
  let _ := ctx0
  let outputWidth : ℚ := 1080
  let outputHeight : ℚ := 1920
  let ctx := defaultCtx
  let p1 := Prim.clearRect 0 0 outputWidth outputHeight ctx
  let selectedFilter := FILTERS.find? (fun f => f.id == rd.filter)
  let ctx := { ctx with
    filter := match selectedFilter with | some f => f.cssFilter | none => "none" }
  let drawWidth := img.naturalWidth * tf.scale
  let drawHeight := img.naturalHeight * tf.scale
  let basePosX := (outputWidth - drawWidth) / 2
  let basePosY := (outputHeight - drawHeight) / 2
  let p2 := Prim.drawImage img (basePosX + tf.offsetX) (basePosY + tf.offsetY)
    drawWidth drawHeight ctx
  let ctx := { ctx with filter := "none" }
  let W := outputWidth
  let H := outputHeight
  let side := W / 2
  let rectX := (W - side) / 2
  let rectY := (H - side) / 2
  let ctx := { ctx with
    shadowColor := "rgba(0, 0, 0, 0.5)", shadowBlur := 15,
    shadowOffsetX := 3, shadowOffsetY := 3 }
  let ctx := { ctx with strokeStyle := "white", lineWidth := 6 }
  let p3 := Prim.strokeRect rectX rectY side side ctx
  let margin := side * (0.06 : ℚ)
  let dateFontSize : ℤ := ⌊side / 22⌋
  let ctx := { ctx with
    fillStyle := "white",
    font := "600 " ++ toString dateFontSize ++ "px \"Inter\", sans-serif" }
  let ctx := { ctx with textAlign := "left" }
  let parts := topLeftParts rd
  let pTopLeft :=
    if parts ≠ [] then
      [Prim.fillText (String.intercalate "  " parts) (rectX + margin)
        (rectY + margin + (dateFontSize : ℚ)) ctx]
    else []
  let ctx := { ctx with textAlign := "right" }
  let p4 := Prim.fillText dateDisplay (rectX + side - margin)
    (rectY + margin + (dateFontSize : ℚ)) ctx
  let statsFontSize : ℤ := ⌊side / 17⌋
  let ctx := { ctx with
    font := "bold " ++ toString statsFontSize ++ "px \"Inter\", sans-serif",
    textAlign := "center" }
  let colWidth := side / 3
  let statsY := rectY + side - margin
  let p5 := Prim.fillText ((if rd.showEmojis then "⏱️ " else "") ++ timeDisplay rd)
    (rectX + colWidth * (0.5 : ℚ)) statsY ctx
  let p6 := Prim.fillText
    ((if rd.showEmojis then "📍 " else "") ++ jsStrOr rd.distance "0.0" ++ "km")
    (rectX + colWidth * (1.5 : ℚ)) statsY ctx
  let p7 := Prim.fillText ((if rd.showEmojis then "⚡ " else "") ++ calculatePace rd)
    (rectX + colWidth * (2.5 : ℚ)) statsY ctx
  [p1, p2, p3] ++ pTopLeft ++ [p4, p5, p6, p7]

/-- The component state the gesture handlers read and write: the current
run data, the loaded image, the transform, the drag flag and last mouse
position, the pinch baseline distance, and the rendered width of the
preview container (`containerRef.current?.clientWidth`). -/
structure AppState where
  runData : RunData
  image : Option Image
  transform : TransformState
  isDragging : Bool
  lastMouseX : ℚ
  lastMouseY : ℚ
  lastPinchDist : Option ℚ
  containerWidth : Option ℚ
deriving DecidableEq, Repr

/-- `getMoveRatio`: 1 when the container ref is unset, otherwise
`1080 / containerWidth`. -/
def getMoveRatio (st : AppState) : ℚ :=
  match st.containerWidth with
  | none => 1
  | some w => 1080 / w

/-- `handleStart`: begin a drag, recording the contact position. -/
def handleStart (x y : ℚ) (st : AppState) : AppState :=
  { st with isDragging := true, lastMouseX := x, lastMouseY := y }

/-- `handleMove`: ignore unless dragging with an image loaded; otherwise
scale the display-space delta by `getMoveRatio` and add it to the
offsets, re-basing the last mouse position. -/
def handleMove (x y : ℚ) (st : AppState) : AppState :=
  if st.isDragging = false ∨ st.image = none then st
  else
    let ratio := getMoveRatio st
    let dx := (x - st.lastMouseX) * ratio
    let dy := (y - st.lastMouseY) * ratio
    { st with
      transform := { st.transform with
        offsetX := st.transform.offsetX + dx,
        offsetY := st.transform.offsetY + dy },
      lastMouseX := x, lastMouseY := y }

/-- The scale clamp `Math.max(0.05, Math.min(20, x))` used by both the
wheel handler and the pinch handler. -/
def clampScale (x : ℚ) : ℚ := max (0.05 : ℚ) (min (20 : ℚ) x)

/-- `handlePinch`: a falsy baseline (`null` or `0`) only records the new
baseline; otherwise multiply the scale by `dist / baseline`, clamp, and
re-base the baseline to `dist`. -/
def handlePinch (dist : ℚ) (st : AppState) : AppState :=
  match st.lastPinchDist with
  | none => { st with lastPinchDist := some dist }
  | some b =>
      if b = 0 then { st with lastPinchDist := some dist }
      else
        let ratio := dist / b
        { st with
          transform := { st.transform with
            scale := clampScale (st.transform.scale * ratio) },
          lastPinchDist := some dist }

/-- The `onWheel` handler: no-op without an image; otherwise multiply the
scale by 0.9 (`deltaY > 0`) or 1.1 and clamp. -/
def onWheel (deltaY : ℚ) (st : AppState) : AppState :=
  if st.image = none then st
  else
    let delta : ℚ := if 0 < deltaY then 0.9 else 1.1
    { st with
      transform := { st.transform with
        scale := clampScale (st.transform.scale * delta) } }

/-- The two-finger branch of `onTouchStart`: record the inter-point
distance as the pinch baseline. -/
def onTouchStartPinch (dist : ℚ) (st : AppState) : AppState :=
  { st with lastPinchDist := some dist }

/-- The `onTouchEnd` handler: stop dragging and clear the pinch
baseline. -/
def onTouchEnd (st : AppState) : AppState :=
  { st with isDragging := false, lastPinchDist := none }

/-- The `img.onload` continuation of `handleImageUpload`: install the
newly decoded image and reset the transform to scale 1, offset (0,0) in
the same step. -/
def imageLoaded (img : Image) (st : AppState) : AppState :=
  { st with
    image := some img,
    transform := { scale := 1, offsetX := 0, offsetY := 0 } }

/-- A gesture/wheel event, as dispatched by the JSX event handlers. -/
inductive GEvent where
  | wheel (deltaY : ℚ)
  | pinchMove (dist : ℚ)
  | pinchStart (dist : ℚ)
  | touchEnd
  | dragStart (x y : ℚ)
  | dragMove (x y : ℚ)
deriving DecidableEq, Repr

/-- Dispatch one event to its handler. -/
def step (st : AppState) : GEvent → AppState
  | .wheel d => onWheel d st
  | .pinchMove d => handlePinch d st
  | .pinchStart d => onTouchStartPinch d st
  | .touchEnd => onTouchEnd st
  | .dragStart x y => handleStart x y st
  | .dragMove x y => handleMove x y st

/-- Run a sequence of events from a starting state. -/
def runEvents (st : AppState) (evs : List GEvent) : AppState :=
  evs.foldl step st

/-! Concrete example values used by witnesses and counterexamples. -/

/-- The default form state of the component (a 30:00 run over 5.0 km). -/
def rdEx : RunData :=
  { timeHours := "00", timeMinutes := "30", timeSeconds := "00",
    distance := "5.0", heartRate := "", temperature := "",
    showEmojis := true, filter := "none" }

/-- An example decoded image. -/
def imgEx : Image := { naturalWidth := 800, naturalHeight := 600 }

/-- An example (identity) transform. -/
def tfEx : TransformState := { scale := 1, offsetX := 0, offsetY := 0 }

/-- An example app state mid-drag over a 360px-wide container. -/
def stDragEx : AppState :=
  { runData := rdEx, image := some imgEx,
    transform := { scale := 1, offsetX := 0, offsetY := 0 },
    isDragging := true, lastMouseX := 0, lastMouseY := 0,
    lastPinchDist := none, containerWidth := some 360 }

/-- An example app state with scale 19 and pinch baseline 1. -/
def stPinch19 : AppState :=
  { runData := rdEx, image := some imgEx,
    transform := { scale := 19, offsetX := 0, offsetY := 0 },
    isDragging := false, lastMouseX := 0, lastMouseY := 0,
    lastPinchDist := some 1, containerWidth := some 360 }

/-- An example app state with no pinch baseline yet. -/
def stPinchNone : AppState :=
  { runData := rdEx, image := some imgEx,
    transform := { scale := 2, offsetX := 5, offsetY := 7 },
    isDragging := false, lastMouseX := 0, lastMouseY := 0,
    lastPinchDist := none, containerWidth := some 360 }

/-! Helper lemmas. -/

/-- The scale clamp lands in [0.05, 20]. -/
theorem clampScale_mem (x : ℚ) : 0.05 ≤ clampScale x ∧ clampScale x ≤ 20 := by
  refine ⟨le_max_left _ _, max_le (by norm_num) (min_le_left _ _)⟩

/-- One event step keeps the scale inside [0.05, 20]. -/
theorem step_scale_mem (st : AppState) (e : GEvent)
    (h1 : 0.05 ≤ st.transform.scale) (h2 : st.transform.scale ≤ 20) :
    0.05 ≤ (step st e).transform.scale ∧ (step st e).transform.scale ≤ 20 := by
  cases e with
  | wheel d =>
      show 0.05 ≤ (onWheel d st).transform.scale ∧ (onWheel d st).transform.scale ≤ 20
      unfold onWheel
      by_cases him : st.image = none
      · rw [if_pos him]; exact ⟨h1, h2⟩
      · rw [if_neg him]
        exact clampScale_mem _
  | pinchMove d =>
      show 0.05 ≤ (handlePinch d st).transform.scale ∧
        (handlePinch d st).transform.scale ≤ 20
      unfold handlePinch
      cases hb : st.lastPinchDist with
      | none => exact ⟨h1, h2⟩
      | some b =>
          dsimp only
          by_cases hb0 : b = 0
          · rw [if_pos hb0]; exact ⟨h1, h2⟩
          · rw [if_neg hb0]; exact clampScale_mem _
  | pinchStart d => exact ⟨h1, h2⟩
  | touchEnd => exact ⟨h1, h2⟩
  | dragStart x y => exact ⟨h1, h2⟩
  | dragMove x y =>
      show 0.05 ≤ (handleMove x y st).transform.scale ∧
        (handleMove x y st).transform.scale ≤ 20
      unfold handleMove
      by_cases hc : st.isDragging = false ∨ st.image = none
      · rw [if_pos hc]; exact ⟨h1, h2⟩
      · rw [if_neg hc]; exact ⟨h1, h2⟩

/-! Claim theorems. -/

/-- C4: the invariant scale ∈ [0.05, 20] is preserved by every sequence
of wheel and pinch updates (and the remaining gesture events, which do
not touch the scale): starting from any in-range scale, the scale after
running any event list is still in [0.05, 20]. -/
theorem c4_scale_invariant (st : AppState) (evs : List GEvent)
    (h1 : 0.05 ≤ st.transform.scale) (h2 : st.transform.scale ≤ 20) :
    0.05 ≤ (runEvents st evs).transform.scale ∧
      (runEvents st evs).transform.scale ≤ 20 := by
  induction evs generalizing st with
  | nil => exact ⟨h1, h2⟩
  | cons e evs ih =>
      have h := step_scale_mem st e h1 h2
      exact ih (step st e) h.1 h.2

/-- C4 witness: a concrete wheel/pinch sequence from scale 1 stays in
range. -/
theorem c4_witness :
    0.05 ≤ (runEvents stDragEx
        [GEvent.wheel 1, GEvent.pinchStart 10, GEvent.pinchMove 20]).transform.scale ∧
      (runEvents stDragEx
        [GEvent.wheel 1, GEvent.pinchStart 10, GEvent.pinchMove 20]).transform.scale ≤ 20 :=
  c4_scale_invariant stDragEx _ (by norm_num [stDragEx]) (by norm_num [stDragEx])

/-- C3: a drag-move while dragging with an image loaded and a container
of displayed width w moves the offsets by exactly the display delta
times 1080 / w; with w = 360 that is 3 times the display delta. -/
theorem c3_drag_mapping (st : AppState) (x y w : ℚ)
    (hdrag : st.isDragging = true) (himg : st.image ≠ none)
    (hw : st.containerWidth = some w) (hwpos : 0 < w) :
    (handleMove x y st).transform.offsetX
        = st.transform.offsetX + (x - st.lastMouseX) * (1080 / w) ∧
      (handleMove x y st).transform.offsetY
        = st.transform.offsetY + (y - st.lastMouseY) * (1080 / w) ∧
      (w = 360 →
        (handleMove x y st).transform.offsetX
            = st.transform.offsetX + 3 * (x - st.lastMouseX) ∧
          (handleMove x y st).transform.offsetY
            = st.transform.offsetY + 3 * (y - st.lastMouseY)) := by
  have hcond : ¬ (st.isDragging = false ∨ st.image = none) := by
    simp [hdrag, himg]
  unfold handleMove getMoveRatio
  rw [if_neg hcond]
  simp only [hw]
  refine ⟨trivial, trivial, ?_⟩
  rintro rfl
  constructor <;> ring_nf

/-- C3 witness: dragging from (0,0) to (10,4) over a 360px container
moves the offsets by (30, 12). -/
theorem c3_witness :
    (handleMove 10 4 stDragEx).transform.offsetX = 30 ∧
      (handleMove 10 4 stDragEx).transform.offsetY = 12 := by
  obtain ⟨hx, hy, -⟩ :=
    c3_drag_mapping stDragEx 10 4 360 rfl (by simp [stDragEx]) rfl (by norm_num)
  refine ⟨?_, ?_⟩
  · rw [hx]; norm_num [stDragEx]
  · rw [hy]; norm_num [stDragEx]

/-- C5 counterexample: with baseline 1 and scale 19, a pinch sample at
distance 2 does not multiply the scale by 2 — the product 38 is clamped
to 20 — so the claim as stated (new scale = scale * dist/baseline,
without clamping) is false at this input. -/
theorem c5_counterexample :
    (handlePinch 2 stPinch19).transform.scale
      ≠ stPinch19.transform.scale * (2 / 1) := by
  norm_num [handlePinch, stPinch19, clampScale, min_def, max_def]

/-- C5 (amended): a pinch sample with an unset or zero baseline only
establishes the new baseline and leaves the transform unchanged (no
division by the baseline is performed); a sample with a set non-zero
baseline b sets the scale to the old scale times dist / b clamped to
[0.05, 20], leaves the offsets unchanged, and re-bases the baseline to
dist. -/
theorem c5_pinch_baseline (st : AppState) (d : ℚ) :
    ((st.lastPinchDist = none ∨ st.lastPinchDist = some 0) →
      (handlePinch d st).transform = st.transform ∧
        (handlePinch d st).lastPinchDist = some d) ∧
      (∀ b, st.lastPinchDist = some b → b ≠ 0 →
        (handlePinch d st).transform.scale
            = clampScale (st.transform.scale * (d / b)) ∧
          (handlePinch d st).transform.offsetX = st.transform.offsetX ∧
          (handlePinch d st).transform.offsetY = st.transform.offsetY ∧
          (handlePinch d st).lastPinchDist = some d) := by
  constructor
  · intro h
    unfold handlePinch
    rcases h with h | h
    · rw [h]
      exact ⟨rfl, rfl⟩
    · rw [h]
      dsimp only
      rw [if_pos rfl]
      exact ⟨rfl, rfl⟩
  · intro b hb hb0
    unfold handlePinch
    rw [hb]
    dsimp only
    rw [if_neg hb0]
    exact ⟨rfl, rfl, rfl, rfl⟩

/-- C5 witness: the first pinch sample on a fresh baseline leaves the
transform untouched and records the baseline. -/
theorem c5_witness :
    (handlePinch 5 stPinchNone).transform = stPinchNone.transform ∧
      (handlePinch 5 stPinchNone).lastPinchDist = some 5 :=
  (c5_pinch_baseline stPinchNone 5).1 (Or.inl rfl)

/-- Numerals below 100 are non-empty strings, so the `|| "0"` fallback
leaves them unchanged. -/
theorem jsStrOr_toString_lt100 : ∀ n : ℕ, n < 100 →
    jsStrOr (toString n) "0" = toString n := by decide

/-- For hour numerals below 100, the parsed hour compares to 0 the way
the numeral does, and printing the parsed hour padded to two digits
agrees with padding the numeral itself. -/
theorem hourFmt : ∀ h : ℕ, h < 100 →
    (jsLt (.fin 0) (jsParseIntNum (jsStrOr (toString h) "0")) = decide (0 < h) ∧
      padStart 2 '0' (jsToString (jsParseIntNum (jsStrOr (toString h) "0")))
        = padStart 2 '0' (toString h)) := by decide

/-- C6: for numeral time fields (hours below 100, minutes and seconds
below 60), the elapsed-time label is minutes and seconds zero-padded to
two digits joined as MM:SS, with a zero-padded HH: prefix exactly when
hours > 0. -/
theorem c6_time_format (rd : RunData) (h m s : ℕ)
    (hh : rd.timeHours = toString h) (hm : rd.timeMinutes = toString m)
    (hs : rd.timeSeconds = toString s)
    (hh100 : h < 100) (hm60 : m < 60) (hs60 : s < 60) :
    timeDisplay rd =
      (if 0 < h then padStart 2 '0' (toString h) ++ ":" else "") ++
        padStart 2 '0' (toString m) ++ ":" ++ padStart 2 '0' (toString s) := by
  obtain ⟨e1, e2⟩ := hourFmt h hh100
  unfold timeDisplay
  rw [hh, hm, hs, jsStrOr_toString_lt100 m (lt_trans hm60 (by norm_num)),
    jsStrOr_toString_lt100 s (lt_trans hs60 (by norm_num))]
  dsimp only
  rw [e1, e2]
  by_cases hp : 0 < h
  · simp [hp]
  · simp [hp]

/-- C6 witness: h=0, m=5, s=3 renders "05:03" and h=1, m=5, s=3 renders
"01:05:03". -/
theorem c6_witness :
    timeDisplay { rdEx with timeHours := "0", timeMinutes := "5", timeSeconds := "3" }
        = "05:03" ∧
      timeDisplay { rdEx with timeHours := "1", timeMinutes := "5", timeSeconds := "3" }
        = "01:05:03" := by
  constructor
  · rw [c6_time_format _ 0 5 3 (by decide) (by decide) (by decide)
      (by norm_num) (by norm_num) (by norm_num)]
    decide
  · rw [c6_time_format _ 1 5 3 (by decide) (by decide) (by decide)
      (by norm_num) (by norm_num) (by norm_num)]
    decide

/-- Printing a finite JavaScript number holding an integer value prints
the integer. -/
theorem jsToString_intCast (k : ℤ) : jsToString (JsNum.fin (k : ℚ)) = toString k := by
  simp [jsToString]

/-- General form of the pace computation: when the time fields parse to
h, m, s and the distance parses to d, `calculatePace` returns the
placeholder for d ≤ 0 and otherwise formats
pace = (3600h + 60m + s) / d. -/
theorem calculatePace_spec (rd : RunData) (h m s : ℕ) (d : ℚ)
    (hh : jsParseInt (jsStrOr rd.timeHours "0") = some (h : ℤ))
    (hm : jsParseInt (jsStrOr rd.timeMinutes "0") = some (m : ℤ))
    (hs : jsParseInt (jsStrOr rd.timeSeconds "0") = some (s : ℤ))
    (hd : jsParseFloat rd.distance = .fin d) :
    calculatePace rd =
      if d ≤ 0 then "-\x27--\""
      else
        let pace : ℚ := (3600 * h + 60 * m + s) / d
        let pMin : ℤ := ⌊pace / 60⌋
        let pSec : ℤ := ⌊pace⌋ - 60 * pMin
        if pMin < 100 then
          toString pMin ++ "\x27" ++ padStart 2 '0' (toString pSec) ++ "\""
        else "--\x27--\"" := by
  unfold calculatePace jsParseIntNum
  rw [hh, hm, hs, hd]
  by_cases hd0 : d = 0
  · subst hd0
    simp [jsOrZero, jsLe]
  · have hOr : jsOrZero (JsNum.fin d) = JsNum.fin d := by simp [jsOrZero, hd0]
    rw [hOr]
    dsimp only
    by_cases hdle : d ≤ 0
    · have h1 : jsLe (JsNum.fin d) (JsNum.fin 0) = true := by simp [jsLe, hdle]
      rw [h1, if_pos rfl, if_pos hdle]
    · have hdpos : 0 < d := not_le.mp hdle
      have h1 : jsLe (JsNum.fin d) (JsNum.fin 0) = false := by simp [jsLe, hdle]
      rw [h1]
      rw [if_neg (by simp : ¬ (false = true)), if_neg hdle]
      have hTS : jsAdd (jsAdd (jsMul (JsNum.fin ((h : ℤ) : ℚ)) (JsNum.fin 3600))
            (jsMul (JsNum.fin ((m : ℤ) : ℚ)) (JsNum.fin 60))) (JsNum.fin ((s : ℤ) : ℚ))
          = JsNum.fin (((h : ℤ) : ℚ) * 3600 + ((m : ℤ) : ℚ) * 60 + ((s : ℤ) : ℚ)) := rfl
      rw [hTS]
      set p : ℚ := (3600 * (h : ℚ) + 60 * (m : ℚ) + (s : ℚ)) / d with hp
      have hq0 : ((h : ℤ) : ℚ) * 3600 + ((m : ℤ) : ℚ) * 60 + ((s : ℤ) : ℚ)
          = 3600 * (h : ℚ) + 60 * (m : ℚ) + (s : ℚ) := by push_cast; ring
      rw [hq0]
      have hpace : jsDiv (JsNum.fin (3600 * (h : ℚ) + 60 * (m : ℚ) + (s : ℚ))) (JsNum.fin d)
          = JsNum.fin p := by simp [jsDiv, hd0, hp]
      rw [hpace]
      have hp0 : 0 ≤ p := by
        rw [hp]; positivity
      have hdiv60 : jsDiv (JsNum.fin p) (JsNum.fin 60) = JsNum.fin (p / 60) := by
        simp [jsDiv]
      have hmod60 : jsMod (JsNum.fin p) (JsNum.fin 60)
          = JsNum.fin (p - 60 * ((⌊p / 60⌋ : ℤ) : ℚ)) := by
        simp [jsMod, ratTrunc, not_lt.mpr (div_nonneg hp0 (by norm_num : (0:ℚ) ≤ 60))]
      rw [hdiv60, hmod60]
      have hfloor1 : jsFloor (JsNum.fin (p / 60)) = JsNum.fin ((⌊p / 60⌋ : ℤ) : ℚ) := rfl
      have hfloor2 : jsFloor (JsNum.fin (p - 60 * ((⌊p / 60⌋ : ℤ) : ℚ)))
          = JsNum.fin (((⌊p⌋ - 60 * ⌊p / 60⌋ : ℤ) : ℚ)) := by
        show JsNum.fin ((⌊p - 60 * ((⌊p / 60⌋ : ℤ) : ℚ)⌋ : ℤ) : ℚ) = _
        rw [show (60 : ℚ) * ((⌊p / 60⌋ : ℤ) : ℚ) = (((60 * ⌊p / 60⌋ : ℤ)) : ℚ) by
          push_cast; ring]
        rw [Int.floor_sub_int]
      rw [hfloor1, hfloor2]
      have hlt : jsLt (JsNum.fin ((⌊p / 60⌋ : ℤ) : ℚ)) (JsNum.fin 100)
          = decide (⌊p / 60⌋ < (100 : ℤ)) := by
        simp [jsLt]
        norm_cast
      rw [hlt]
      by_cases hmin : ⌊p / 60⌋ < (100 : ℤ)
      · rw [if_pos (by simp [hmin]), if_pos hmin]
        rw [jsToString_intCast, jsToString_intCast]
      · rw [if_neg (by simp [hmin]), if_neg hmin]

/-- C1: for a stat input whose time fields parse to h, m, s and whose
distance parses to d, the displayed pace derives
pace_seconds = (3600h + 60m + s) / d and is formatted
minutes-apostrophe-seconds with the seconds zero-padded to two digits;
d ≤ 0 gives the dash placeholder and pace minutes ≥ 100 give the
double-dash placeholder. -/
theorem c1_pace_format (rd : RunData) (h m s : ℕ) (d : ℚ)
    (hh : jsParseInt (jsStrOr rd.timeHours "0") = some (h : ℤ))
    (hm : jsParseInt (jsStrOr rd.timeMinutes "0") = some (m : ℤ))
    (hs : jsParseInt (jsStrOr rd.timeSeconds "0") = some (s : ℤ))
    (hd : jsParseFloat rd.distance = .fin d) :
    calculatePace rd =
      if d ≤ 0 then "-\x27--\""
      else
        let pace : ℚ := (3600 * h + 60 * m + s) / d
        let pMin : ℤ := ⌊pace / 60⌋
        let pSec : ℤ := ⌊pace⌋ - 60 * pMin
        if pMin < 100 then
          toString pMin ++ "\x27" ++ padStart 2 '0' (toString pSec) ++ "\""
        else "--\x27--\"" :=
  calculatePace_spec rd h m s d hh hm hs hd

/-- C1 witness: distance 5.0 km and elapsed 30:00 give the pace string
6-apostrophe-00-quote. -/
theorem c1_witness : calculatePace rdEx = "6\x2700\"" := by
  have hd : jsParseFloat rdEx.distance
      = JsNum.fin (1 * ((5 : ℚ) + 0 / 10 ^ (1 : ℕ)) * 10 ^ (0 : ℤ)) := rfl
  rw [c1_pace_format rdEx 0 30 0 5 (by decide) (by decide) (by decide)
    (by rw [hd]; norm_num)]
  norm_num
  decide

/-- C7: installing a newly decoded image resets the transform to scale 1
and offset (0,0), whatever the prior transform was, and installs the
image in the same step. -/
theorem c7_reset_on_load (st : AppState) (img : Image) :
    (imageLoaded img st).transform = { scale := 1, offsetX := 0, offsetY := 0 } ∧
      (imageLoaded img st).image = some img :=
  ⟨rfl, rfl⟩

/-- C2 counterexample: `drawCanvas` reads the current date inside the
function, so two invocations with identical image, transform, stats and
filter made on different dates produce different primitive lists (the
date label differs) — the claim as stated, quantifying over every pair
of invocations, is false. -/
theorem c2_counterexample :
    drawCanvas defaultCtx imgEx rdEx tfEx "10월 11일"
      ≠ drawCanvas defaultCtx imgEx rdEx tfEx "10월 12일" := by
  intro hEq
  simp [drawCanvas, topLeftParts, rdEx] at hEq

/-- C2 (amended): with the rendered date label fixed, the pipeline is
deterministic — the primitive list depends only on the image, the stats,
the transform, the filter selection and that date, and in particular not
on the context state a previous invocation left behind (assigning
`canvas.width`/`canvas.height` resets the context), so re-invocation
with unchanged inputs reproduces the identical raster. -/
theorem c2_render_determinism (ctx1 ctx2 : CtxCore) (img : Image) (rd : RunData)
    (tf : TransformState) (date : String) :
    drawCanvas ctx1 img rd tf date = drawCanvas ctx2 img rd tf date := rfl

/-- C8: the selected filter reaches only the photo draw; every primitive
after the photo draw (the frame border, the optional top-left metrics,
the date label and the stat labels) is identical whatever filter
identifier is selected, and each of those primitives executes with the
context filter restored to none. -/
theorem c8_filter_isolation (ctx : CtxCore) (img : Image) (tf : TransformState)
    (rd : RunData) (f1 f2 date : String) :
    (drawCanvas ctx img { rd with filter := f1 } tf date).drop 2
        = (drawCanvas ctx img { rd with filter := f2 } tf date).drop 2 ∧
      ∀ p ∈ (drawCanvas ctx img { rd with filter := f1 } tf date).drop 2,
        (primCtx p).filter = "none" := by
  constructor
  · rfl
  · intro p hp
    by_cases htl : topLeftParts { rd with filter := f1 } = []
    · simp only [drawCanvas, htl] at hp
      simp at hp
      rcases hp with rfl | rfl | rfl | rfl | rfl <;> rfl
    · simp only [drawCanvas, if_pos htl] at hp
      simp at hp
      rcases hp with rfl | rfl | rfl | rfl | rfl | rfl <;> rfl

/-- C8 witness: at a concrete input, the overlay primitives under the
sepia filter equal those under no filter. -/
theorem c8_witness :
    (drawCanvas defaultCtx imgEx { rdEx with filter := "sepia" } tfEx "10월 11일").drop 2
      = (drawCanvas defaultCtx imgEx { rdEx with filter := "none" } tfEx "10월 11일").drop 2 :=
  (c8_filter_isolation defaultCtx imgEx tfEx rdEx "sepia" "none" "10월 11일").1

/-- C10: a filter identifier matching no entry of FILTERS falls back to
no filter — the rendered primitive list equals the one for the
identifier "none" with the same image, transform and stats. -/
theorem c10_unknown_filter (ctx : CtxCore) (img : Image) (rd : RunData)
    (tf : TransformState) (date : String)
    (hf : ∀ f ∈ FILTERS, f.id ≠ rd.filter) :
    drawCanvas ctx img rd tf date
      = drawCanvas ctx img { rd with filter := "none" } tf date := by
  have hfind : FILTERS.find? (fun f => f.id == rd.filter) = none := by
    rw [List.find?_eq_none]
    intro f hfmem
    simp [hf f hfmem]
  simp only [drawCanvas, hfind]
  rfl

/-- C10 witness: the unknown identifier "bogus" renders exactly like
"none". -/
theorem c10_witness :
    drawCanvas defaultCtx imgEx { rdEx with filter := "bogus" } tfEx "10월 11일"
      = drawCanvas defaultCtx imgEx
          { ({ rdEx with filter := "bogus" } : RunData) with filter := "none" }
          tfEx "10월 11일" :=
  c10_unknown_filter defaultCtx imgEx { rdEx with filter := "bogus" } tfEx "10월 11일"
    (by decide)

/-- A finite JavaScript number is never NaN. -/
theorem jsNum_fin_ne_nan (q : ℚ) : JsNum.fin q ≠ JsNum.nan := fun h => JsNum.noConfusion h

/-- The `|| 0` fallback on a finite number only replaces 0 by 0. -/
theorem jsOrZero_fin (q : ℚ) :
    jsOrZero (JsNum.fin q) = if q = 0 then JsNum.fin 0 else JsNum.fin q := by
  unfold jsOrZero
  simp only [jsNum_fin_ne_nan q, false_or, JsNum.fin.injEq]

/-- The distance string "5.0" parses to the rational 5. -/
theorem jsParseFloat_five : jsParseFloat "5.0" = JsNum.fin 5 := by
  rw [show jsParseFloat "5.0"
      = JsNum.fin (1 * ((5 : ℚ) + 0 / 10 ^ (1 : ℕ)) * 10 ^ (0 : ℤ)) from rfl]
  norm_num

/-- C9 counterexample: a non-numeric hours field is not treated as zero
by the pace computation — parseInt gives NaN, which propagates and takes
the "pace minutes below 100" comparison false, so the double-dash
placeholder is rendered instead of the zero-hours pace 6-apostrophe-00;
the two results differ. -/
theorem c9_counterexample :
    calculatePace { rdEx with timeHours := "x" } = "--\x27--\"" ∧
      calculatePace { rdEx with timeHours := "0" } = "6\x2700\"" ∧
      calculatePace { rdEx with timeHours := "x" }
        ≠ calculatePace { rdEx with timeHours := "0" } := by
  have h1 : calculatePace { rdEx with timeHours := "x" } = "--\x27--\"" := by
    unfold calculatePace jsParseIntNum
    rw [show jsParseFloat ({ rdEx with timeHours := "x" } : RunData).distance
        = JsNum.fin 5 from jsParseFloat_five]
    decide
  have h2 : calculatePace { rdEx with timeHours := "0" } = "6\x2700\"" := by
    rw [calculatePace_spec { rdEx with timeHours := "0" } 0 30 0 5 (by decide) (by decide)
      (by decide) (by rw [show jsParseFloat ({ rdEx with timeHours := "0" } : RunData).distance
          = JsNum.fin (1 * ((5 : ℚ) + 0 / 10 ^ (1 : ℕ)) * 10 ^ (0 : ℤ)) from rfl]; norm_num)]
    norm_num
    decide
  exact ⟨h1, h2, by rw [h1, h2]; decide⟩

/-- C9 (amended): empty time fields degrade to zero for both the pace
computation and the time label, an empty or non-numeric (NaN-parsing)
distance degrades to zero, and empty heart-rate/temperature fields are
omitted from the overlay; no input raises (every modelled function is
total).  Non-numeric time fields are, however, not treated as zero by
the pace computation: parseInt yields NaN, which propagates and renders
the double-dash placeholder instead of the as-if-zero pace.  The time
label still treats a non-numeric hours field as zero — NaN > 0 is
false, so the HH: prefix is omitted exactly as for hours zero. -/
theorem c9_empty_fields (rd : RunData) :
    (rd.timeHours = "" → calculatePace rd = calculatePace { rd with timeHours := "0" } ∧
        timeDisplay rd = timeDisplay { rd with timeHours := "0" }) ∧
      (rd.timeMinutes = "" → calculatePace rd = calculatePace { rd with timeMinutes := "0" } ∧
        timeDisplay rd = timeDisplay { rd with timeMinutes := "0" }) ∧
      (rd.timeSeconds = "" → calculatePace rd = calculatePace { rd with timeSeconds := "0" } ∧
        timeDisplay rd = timeDisplay { rd with timeSeconds := "0" }) ∧
      (jsParseFloat rd.distance = JsNum.nan →
        calculatePace rd = calculatePace { rd with distance := "0" }) ∧
      (rd.heartRate = "" ∧ rd.temperature = "" → topLeftParts rd = []) ∧
      (jsParseInt (jsStrOr rd.timeHours "0") = none →
        timeDisplay rd = timeDisplay { rd with timeHours := "0" }) ∧
      (jsParseInt (jsStrOr rd.timeHours "0") = none →
        ∀ d : ℚ, jsParseFloat rd.distance = JsNum.fin d → ¬ d ≤ 0 →
          calculatePace rd = "--\x27--\"") := by
  refine ⟨?_, ?_, ?_, ?_, ?_, ?_, ?_⟩
  case _ =>
    obtain ⟨th, tm, ts, dist, hr, te, se, fl⟩ := rd
    rintro rfl
    exact ⟨rfl, rfl⟩
  case _ =>
    obtain ⟨th, tm, ts, dist, hr, te, se, fl⟩ := rd
    rintro rfl
    exact ⟨rfl, rfl⟩
  case _ =>
    obtain ⟨th, tm, ts, dist, hr, te, se, fl⟩ := rd
    rintro rfl
    exact ⟨rfl, rfl⟩
  case _ =>
    obtain ⟨th, tm, ts, dist, hr, te, se, fl⟩ := rd
    intro hd
    unfold calculatePace
    dsimp only
    rw [hd, show jsParseFloat "0"
        = JsNum.fin (1 * ((0 : ℚ) + 0 / 10 ^ (0 : ℕ)) * 10 ^ (0 : ℤ)) from rfl]
    norm_num [jsOrZero_fin, jsOrZero, jsLe]
  case _ =>
    obtain ⟨th, tm, ts, dist, hr, te, se, fl⟩ := rd
    rintro ⟨rfl, rfl⟩
    rfl
  case _ =>
    intro hnan
    unfold timeDisplay jsParseIntNum
    rw [hnan]
    rfl
  case _ =>
    intro hnan d hd hdle
    unfold calculatePace jsParseIntNum
    rw [hd, hnan, jsOrZero_fin]
    rw [if_neg (fun h0 => hdle (le_of_eq h0))]
    dsimp only
    have hle : jsLe (JsNum.fin d) (JsNum.fin 0) = false := by simp [jsLe, hdle]
    rw [hle]
    simp only [jsMul, jsAdd, jsDiv, jsFloor, jsLt, Bool.false_eq_true, if_false]

/-- C9 witness: an empty hours field yields the same pace and time label
as hours zero. -/
theorem c9_witness :
    calculatePace { rdEx with timeHours := "" }
        = calculatePace { ({ rdEx with timeHours := "" } : RunData) with timeHours := "0" } ∧
      timeDisplay { rdEx with timeHours := "" }
        = timeDisplay { ({ rdEx with timeHours := "" } : RunData) with timeHours := "0" } :=
  (c9_empty_fields { rdEx with timeHours := "" }).1 rfl

end RunSnap
